import Mathlib

/-!
Verification of the image-browser resampling core (`src/main.rs`) against its
natural-language specification.

Modelling conventions (shallow embedding):

* Rust `f32` arithmetic in the viewport mapper is embedded as exact rational
  (`ℚ`) arithmetic; `max`/`min`/division/subtraction keep their structure.
  The Rust saturating cast `as u32` on a float becomes `ratToU32` below
  (negative values go to 0, values are truncated toward zero and capped at
  `2^32 - 1`, exactly the semantics of Rust's saturating float-to-int cast).
* Times (`std::time::Instant`) are embedded as natural numbers of
  milliseconds; `now.duration_since(last).as_millis()` becomes the saturating
  natural subtraction `now - last`.
* Pixel contents of rasters and of the PNG-encoded output buffers are not
  inspected by any claim; the resampling kernels and the PNG codec live in
  the external `resize`/`image` crates (out of scope per the spec).  A
  decoded raster is therefore modelled by its dimensions, and an output byte
  buffer (`Vec<u8>`) by its provenance: `Bytes.empty` is `Vec::new()`, and
  `Bytes.png w h rect alg` is the (always non-empty) PNG encoding of a
  `w×h` raster produced from crop rectangle `rect` with algorithm `alg`.
* The fields of `struct State` that the claims never touch (file tree,
  current paths, image collection, thumbnail cache, fullscreen flag,
  recent-files manager) are omitted from `AppState`.
* `State::update` is embedded as `update now s msg`, returning the new state
  together with the list of resample invocations it performs or spawns
  (`RenderCall`), each tagged with the destination tier (which buffer /
  quality flag the result is for) and the algorithm handed to the kernel.
  Spawned async tasks deliver their results as later `Msg.imageResized`
  events; the 300 ms sleep spawned by `SliderReleased` delivers a later
  `Msg.finalizeDragging` event.
-/

namespace ImageBrowser

/-- The `enum ResamplingType` from `src/main.rs`. -/
inductive ResamplingType where
  | point
  | triangle
  | catrom
  | mitchell
  | lanczos3
deriving DecidableEq, Repr

/-- Quality tier of a render pass: the `bool is_high_quality` flag of
`Message::ImageResized`, resp. which buffer a synchronous render writes. -/
inductive Tier where
  | preview
  | final
deriving DecidableEq, Repr

/-- One invocation of the resampling pipeline (`scale_image_async` or
`crop_and_scale`), recorded with its destination tier and the algorithm
argument actually passed to the kernel. -/
structure RenderCall where
  tier : Tier
  alg : ResamplingType
deriving DecidableEq, Repr

/-- A crop rectangle in source-pixel coordinates. -/
structure CropRect where
  x : ℕ
  y : ℕ
  w : ℕ
  h : ℕ
deriving DecidableEq, Repr

/-- A decoded RGB raster (`image::RgbImage`), modelled by its dimensions. -/
structure Raster where
  w : ℕ
  h : ℕ
deriving DecidableEq, Repr

/-- An output byte buffer (`Vec<u8>`), modelled by provenance:
`empty` is `Vec::new()`; `png w h rect alg` is the PNG encoding of the
`w×h` output raster obtained by cropping `rect` and resampling with `alg`
(such an encoding is never the empty byte vector). -/
inductive Bytes where
  | empty
  | png (w h : ℕ) (rect : CropRect) (alg : ResamplingType)
deriving DecidableEq, Repr

/-- Rust saturating cast `f32 as u32`, on the exact rational value:
negative values clamp to 0 (`Nat.floor` already sends negatives to 0),
otherwise truncate toward zero and cap at `u32::MAX`. -/
def ratToU32 (q : ℚ) : ℕ := min (Nat.floor q) (2 ^ 32 - 1)

/-- The crop rectangle computed by `crop_and_scale` (src/main.rs:1327-1346):

```rust
let view_w = (full_w as f32 / scale).max(1.0);
let view_h = (full_h as f32 / scale).max(1.0);
let center_x = full_w as f32 / 2.0;
let center_y = full_h as f32 / 2.0;
let crop_x = (center_x - view_w / 2.0 - offset.x / scale)
    .max(0.0).min(full_w as f32 - view_w) as u32;
let crop_y = (center_y - view_h / 2.0 - offset.y / scale)
    .max(0.0).min(full_h as f32 - view_h) as u32;
let crop_w = view_w.min(full_w as f32 - crop_x as f32) as u32;
let crop_h = view_h.min(full_h as f32 - crop_y as f32) as u32;
```
-/
def crop_rect (W H : ℕ) (scale ox oy : ℚ) : CropRect :=
  let view_w : ℚ := max ((W : ℚ) / scale) 1
  let view_h : ℚ := max ((H : ℚ) / scale) 1
  let center_x : ℚ := (W : ℚ) / 2
  let center_y : ℚ := (H : ℚ) / 2
  let crop_x : ℕ :=
    ratToU32 (min (max (center_x - view_w / 2 - ox / scale) 0) ((W : ℚ) - view_w))
  let crop_y : ℕ :=
    ratToU32 (min (max (center_y - view_h / 2 - oy / scale) 0) ((H : ℚ) - view_h))
  let crop_w : ℕ := ratToU32 (min view_w ((W : ℚ) - (crop_x : ℚ)))
  let crop_h : ℕ := ratToU32 (min view_h ((H : ℚ) - (crop_y : ℚ)))
  ⟨crop_x, crop_y, crop_w, crop_h⟩

/-- Embeds `crop_and_scale` (src/main.rs:1321-1369): crop via `crop_rect`, resample
the cropped region back up to the full source dimensions with `resample`,
and PNG-encode the result. -/
def crop_and_scale (ori : Raster) (scale : ℚ) (off : ℚ × ℚ)
    (resample : ResamplingType) : Bytes :=
  Bytes.png ori.w ori.h (crop_rect ori.w ori.h scale off.1 off.2) resample

/-- Embeds `scale_image_async` (src/main.rs:1270-1318): with no loaded original it
returns `Vec::new()`; otherwise it crops a centered window of size
`(W/scale, H/scale)` (dimensions cast with the saturating `as u32`, corner
via `saturating_sub` and integer halving) and resamples it back to `(W, H)`,
PNG-encoding the result. -/
def scale_image_async (ori_img : Option Raster) (slider_value : ℕ)
    (resampling_type : ResamplingType) : Bytes :=
  match ori_img with
  | none => Bytes.empty
  | some img =>
      let scale : ℚ := (slider_value : ℚ) / 50
      let crop_width : ℕ := ratToU32 ((img.w : ℚ) / scale)
      let crop_height : ℕ := ratToU32 ((img.h : ℚ) / scale)
      let crop_x : ℕ := (img.w - crop_width) / 2
      let crop_y : ℕ := (img.h - crop_height) / 2
      Bytes.png img.w img.h ⟨crop_x, crop_y, crop_width, crop_height⟩
        resampling_type

/-- The zoom factor derived from a slider value: `slider_value as f32 / 50.0`
(src/main.rs:673, 692, 1278).  The zoom slider widget is
`slider(50..=150, ...)` (src/main.rs:953), so the slider value ranges over
`[50, 150]`. -/
def zoomOf (slider_value : ℕ) : ℚ := (slider_value : ℚ) / 50

/-- The fields of `struct State` (src/main.rs:73-96) that the interactive
resampling core reads or writes.  Omitted: file-tree, paths, image
collection, thumbnail cache, recent-files manager, fullscreen flag. -/
structure AppState where
  slider_value : ℕ
  resampling_type : ResamplingType
  original : Option Raster
  scaled_bytes : Bytes
  is_dragging : Bool
  last_resize_time : ℕ
  preview_scaled_bytes : Bytes
  final_scaled_bytes : Bytes
  is_resampling_mode : Bool
  hand_tool_active : Bool
  is_panning : Bool
  pan_start_position : Option (ℚ × ℚ)
  pan_offset : ℚ × ℚ
deriving DecidableEq, Repr

/-- The messages of `enum Message` handled by the resampling core.
`sliderChanged` carries the new slider value; `imageResized` carries an
async render result and the `is_high_quality` flag; `loadImage` carries the
decoder's result for the picked path (`none` = decode failed);
`mouseMoved` carries the pointer position. -/
inductive Msg where
  | sliderChanged (v : ℕ)
  | sliderReleased
  | finalizeDragging
  | resamplingTypeChanged (t : ResamplingType)
  | imageResized (b : Bytes) (is_high_quality : Bool)
  | loadImage (decoded : Option Raster)
  | mousePressed
  | mouseReleased
  | mouseMoved (p : ℚ × ℚ)
deriving DecidableEq, Repr

/-- Embeds `State::update` (src/main.rs:263-722), restricted to the messages above.
`now` is the value `std::time::Instant::now()` would return while the
message is being processed, in milliseconds.  The returned list records
every resampling invocation the handler performs or spawns. -/
def update (now : ℕ) (s : AppState) : Msg → AppState × List RenderCall
  | .sliderChanged v =>
      -- src/main.rs:442-469
      let s := { s with slider_value := v, is_dragging := true,
                        is_resampling_mode := true }
      if now - s.last_resize_time < 300 then
        (s, [])
      else
        ({ s with last_resize_time := now }, [⟨.preview, .point⟩])
  | .sliderReleased =>
      -- src/main.rs:471-484: only spawns the delayed FinalizeDragging task
      (s, [])
  | .finalizeDragging =>
      -- src/main.rs:486-505
      if s.is_dragging then
        ({ s with is_dragging := false }, [⟨.final, s.resampling_type⟩])
      else
        (s, [])
  | .resamplingTypeChanged t =>
      -- src/main.rs:506-522
      let s := { s with resampling_type := t }
      if s.original.isSome then (s, [⟨.final, t⟩]) else (s, [])
  | .imageResized b is_high_quality =>
      -- src/main.rs:523-534
      if is_high_quality then
        ({ s with final_scaled_bytes := b, scaled_bytes := b }, [])
      else if s.is_dragging then
        ({ s with preview_scaled_bytes := b, scaled_bytes := b }, [])
      else
        (s, [])
  | .loadImage decoded =>
      -- src/main.rs:546-571 (the resets happen before the decode attempt;
      -- on decode failure only a message is logged)
      let s := { s with is_dragging := false, slider_value := 50,
                        is_resampling_mode := false,
                        preview_scaled_bytes := Bytes.empty,
                        final_scaled_bytes := Bytes.empty,
                        pan_offset := (0, 0), is_panning := false,
                        pan_start_position := none }
      match decoded with
      | some img => ({ s with original := some img }, [])
      | none => (s, [])
  | .mousePressed =>
      -- src/main.rs:656-664
      if s.hand_tool_active then
        ({ s with is_panning := true, pan_start_position := none }, [])
      else
        (s, [])
  | .mouseReleased =>
      -- src/main.rs:665-682
      if s.hand_tool_active then
        let s := { s with is_panning := false, pan_start_position := none }
        match s.original with
        | some ori =>
            let b := crop_and_scale ori ((s.slider_value : ℚ) / 50)
              s.pan_offset s.resampling_type
            ({ s with scaled_bytes := b, final_scaled_bytes := b },
             [⟨.final, s.resampling_type⟩])
        | none => (s, [])
      else
        (s, [])
  | .mouseMoved p =>
      -- src/main.rs:683-707
      if s.hand_tool_active && s.is_panning then
        match s.pan_start_position with
        | some last =>
            let off : ℚ × ℚ :=
              (s.pan_offset.1 + (p.1 - last.1), s.pan_offset.2 + (p.2 - last.2))
            let s := { s with pan_offset := off, pan_start_position := some p }
            match s.original with
            | some ori =>
                let b := crop_and_scale ori ((s.slider_value : ℚ) / 50) off
                  ResamplingType.point
                ({ s with scaled_bytes := b, preview_scaled_bytes := b },
                 [⟨.preview, .point⟩])
            | none => (s, [])
        | none => ({ s with pan_start_position := some p }, [])
      else
        (s, [])

/-- The initial session state from `State::new` (src/main.rs:190-261);
the creation instant is taken as time 0. -/
def initState : AppState where
  slider_value := 50
  resampling_type := .lanczos3
  original := none
  scaled_bytes := .empty
  is_dragging := false
  last_resize_time := 0
  preview_scaled_bytes := .empty
  final_scaled_bytes := .empty
  is_resampling_mode := false
  hand_tool_active := false
  is_panning := false
  pan_start_position := none
  pan_offset := (0, 0)

/-- Process a list of timed messages in order, collecting every resample
invocation. -/
def runEvents (s : AppState) : List (ℕ × Msg) → AppState × List RenderCall
  | [] => (s, [])
  | e :: rest =>
      let p := update e.1 s e.2
      let q := runEvents p.1 rest
      (q.1, p.2 ++ q.2)

/-- Number of Preview-tier resample invocations in a trace. -/
def previews (l : List RenderCall) : ℕ := l.countP (fun c => c.tier == Tier.preview)

/-- Number of Final-tier resample invocations in a trace. -/
def finals (l : List RenderCall) : ℕ := l.countP (fun c => c.tier == Tier.final)

/-- Holds (as `true`) iff every call in the trace has the given tier and algorithm. -/
def callsAre (l : List RenderCall) (t : Tier) (a : ResamplingType) : Bool :=
  l.all (fun c => c.tier == t && c.alg == a)

/-- A synthetic stream of `n` slider drag events starting at time `t0`,
spaced at interval `Δ`, with values `vals 0, vals 1, ...` (the experiment
stream of the spec's throttle property). -/
def dragStream (Δ : ℕ) : (ℕ → ℕ) → ℕ → ℕ → List (ℕ × Msg)
  | _, _, 0 => []
  | vals, t0, n + 1 =>
      (t0, Msg.sliderChanged (vals 0)) ::
        dragStream Δ (fun k => vals (k + 1)) (t0 + Δ) n

/-- A session state mid-interaction: slider at 80, dragging, panned, with
non-empty render buffers (used to exhibit that a failed load does not keep
the prior state). -/
def midDragState : AppState where
  slider_value := 80
  resampling_type := .catrom
  original := some ⟨200, 100⟩
  scaled_bytes := Bytes.png 200 100 ⟨50, 25, 100, 50⟩ .point
  is_dragging := true
  last_resize_time := 1000
  preview_scaled_bytes := Bytes.png 200 100 ⟨50, 25, 100, 50⟩ .point
  final_scaled_bytes := Bytes.png 200 100 ⟨50, 25, 100, 50⟩ .catrom
  is_resampling_mode := true
  hand_tool_active := false
  is_panning := false
  pan_start_position := none
  pan_offset := (3, 7)

/-- The extension whitelist of the thumbnail loader
(src/main.rs:596: `["png", "jpg", "jpeg", "gif", "bmp", "tiff", "webp"]`;
note: no `svg`). -/
def supported_thumb_exts : List String :=
  ["png", "jpg", "jpeg", "gif", "bmp", "tiff", "webp"]

/-- The extension set the SPEC claims is supported by the thumbnail path
(spec §6: "non-{png,jpg,jpeg,gif,bmp,tiff,webp,svg}").  Kept separate from
`supported_thumb_exts` (the set actually in the code) for comparison. -/
def spec_claimed_thumb_exts : List String :=
  ["png", "jpg", "jpeg", "gif", "bmp", "tiff", "webp", "svg"]

/-- The raster handle produced by the thumbnail loader, by provenance:
`flatPlaceholder w h b` is `Handle::from_rgba(w, h, vec![b].repeat(w*h*4))`;
`errorPlaceholder w h` is the red-tinted decode-failure placeholder;
`decodedThumb` is a successfully decoded and Lanczos3-resized thumbnail
(its pixel data and exact fitted dimensions are not inspected by any
claim). -/
inductive ThumbHandle where
  | flatPlaceholder (w h byte : ℕ)
  | errorPlaceholder (w h : ℕ)
  | decodedThumb
deriving DecidableEq, Repr

/-- Result of a `LoadThumbnail` request: the handle delivered via
`ThumbnailLoaded`, plus whether a decode of the file was attempted. -/
structure ThumbOutcome where
  handle : ThumbHandle
  decode_attempted : Bool
deriving DecidableEq, Repr

/-- Rust's `str::to_lowercase`, character by character (written out over the
character list so that it evaluates inside the kernel; extensions are
ASCII, for which this agrees with `to_lowercase`). -/
def to_lowercase (s : String) : String := ⟨s.data.map Char.toLower⟩

/-- The async closure of `Message::LoadThumbnail` (src/main.rs:572-634):
missing file → grey `80×80` placeholder, no decode; extension (lowercased)
outside `supported_thumb_exts` → flat `80×80` placeholder of byte 150, no
decode; otherwise a decode is attempted (`decoded` is the decoder's
outcome): failure → error placeholder, success → resized thumbnail. -/
def load_thumbnail (file_exists is_file : Bool) (ext : String)
    (decoded : Option Raster) : ThumbOutcome :=
  if !(file_exists && is_file) then
    ⟨.flatPlaceholder 80 80 200, false⟩
  else if !(supported_thumb_exts.contains (to_lowercase ext)) then
    ⟨.flatPlaceholder 80 80 150, false⟩
  else
    match decoded with
    | some _ => ⟨.decodedThumb, true⟩
    | none => ⟨.errorPlaceholder 80 80, true⟩

/-! ## Helper lemmas -/

theorem ratToU32_le_of_le {q : ℚ} {n : ℕ} (h : q ≤ (n : ℚ)) : ratToU32 q ≤ n := by
  have hf : Nat.floor q ≤ Nat.floor ((n : ℚ)) := Nat.floor_le_floor h
  rw [Nat.floor_natCast] at hf
  exact le_trans (min_le_left _ _) hf

/-- One axis of the C1 bound: for any source extent `W ≥ 1`, any logical view
extent `v ≥ 1` and any unclamped corner position `e`, the clamped corner plus
the clamped extent computed as in `crop_and_scale` stay within `W`. -/
theorem crop_pair_le (W : ℕ) (e v : ℚ) (hW : 1 ≤ W) (hv : 1 ≤ v) :
    ratToU32 (min (max e 0) ((W : ℚ) - v)) +
      ratToU32 (min v ((W : ℚ) - ((ratToU32 (min (max e 0) ((W : ℚ) - v)) : ℕ) : ℚ))) ≤ W := by
  set cx : ℕ := ratToU32 (min (max e 0) ((W : ℚ) - v)) with hcx_def
  have hW1 : ((W - 1 : ℕ) : ℚ) = (W : ℚ) - 1 := by
    push_cast [Nat.cast_sub hW]
    ring
  have h1 : min (max e 0) ((W : ℚ) - v) ≤ ((W - 1 : ℕ) : ℚ) := by
    rw [hW1]
    calc min (max e 0) ((W : ℚ) - v) ≤ (W : ℚ) - v := min_le_right _ _
      _ ≤ (W : ℚ) - 1 := by linarith
  have hcx : cx ≤ W - 1 := ratToU32_le_of_le h1
  have hcx' : cx ≤ W := le_trans hcx (Nat.sub_le _ _)
  have h2 : min v ((W : ℚ) - (cx : ℚ)) ≤ ((W - cx : ℕ) : ℚ) := by
    have hc : ((W - cx : ℕ) : ℚ) = (W : ℚ) - (cx : ℚ) := by
      push_cast [Nat.cast_sub hcx']
      ring
    rw [hc]
    exact min_le_right _ _
  have hcw : ratToU32 (min v ((W : ℚ) - (cx : ℚ))) ≤ W - cx := ratToU32_le_of_le h2
  omega

theorem runEvents_cons (s : AppState) (e : ℕ × Msg) (rest : List (ℕ × Msg)) :
    runEvents s (e :: rest) =
      ((runEvents (update e.1 s e.2).1 rest).1,
       (update e.1 s e.2).2 ++ (runEvents (update e.1 s e.2).1 rest).2) := rfl

theorem runEvents_append (l1 l2 : List (ℕ × Msg)) :
    ∀ s : AppState,
      runEvents s (l1 ++ l2) =
        ((runEvents (runEvents s l1).1 l2).1,
         (runEvents s l1).2 ++ (runEvents (runEvents s l1).1 l2).2) := by
  induction l1 with
  | nil => intro s; simp [runEvents]
  | cons e rest ih =>
      intro s
      simp only [List.cons_append, runEvents_cons, ih, List.append_assoc]

/-- A slider drag event always (re)enters the dragging state, whether or not
the throttle accepts it. -/
theorem update_sliderChanged_dragging (now : ℕ) (s : AppState) (v : ℕ) :
    (update now s (.sliderChanged v)).1.is_dragging = true := by
  by_cases h : now - s.last_resize_time < 300 <;> simp [update, h]

/-- Processing `SliderChanged` while the throttle window is still open: coalesced
(state updated, no render). -/
theorem update_sliderChanged_eq_of_lt (now : ℕ) (s : AppState) (v : ℕ)
    (h : now - s.last_resize_time < 300) :
    update now s (.sliderChanged v) =
      ({ s with slider_value := v, is_dragging := true,
                is_resampling_mode := true }, []) := by
  simp [update, h]

/-- Processing `SliderChanged` past the throttle window: accepted, `last_resize_time`
reset, one Preview render spawned with the `Point` algorithm. -/
theorem update_sliderChanged_eq_of_ge (now : ℕ) (s : AppState) (v : ℕ)
    (h : ¬ now - s.last_resize_time < 300) :
    update now s (.sliderChanged v) =
      ({ s with slider_value := v, is_dragging := true,
                is_resampling_mode := true, last_resize_time := now },
       [⟨.preview, .point⟩]) := by
  simp [update, h]

theorem previews_cons_preview (l : List RenderCall) :
    previews (⟨Tier.preview, ResamplingType.point⟩ :: l) = previews l + 1 :=
  List.countP_cons_of_pos _ _ (by decide)

theorem finals_cons_preview (l : List RenderCall) :
    finals (⟨Tier.preview, ResamplingType.point⟩ :: l) = finals l :=
  List.countP_cons_of_neg _ _ (by decide)

theorem previews_append (l1 l2 : List RenderCall) :
    previews (l1 ++ l2) = previews l1 + previews l2 := by
  simp [previews, List.countP_append]

theorem finals_append (l1 l2 : List RenderCall) :
    finals (l1 ++ l2) = finals l1 + finals l2 := by
  simp [finals, List.countP_append]

/-- Core throttle bound: over any run of slider drag events whose times are
all `≤ B`, the number of accepted Preview triggers is at most
`(B - last_resize_time) / 300`, because each accepted trigger resets
`last_resize_time` to its own time and the next acceptance needs 300 more
milliseconds. -/
theorem previews_changed_le (es : List (ℕ × Msg)) :
    ∀ (s : AppState) (B : ℕ),
      (∀ e ∈ es, (∃ v, e.2 = Msg.sliderChanged v) ∧ e.1 ≤ B) →
      previews (runEvents s es).2 ≤ (B - s.last_resize_time) / 300 := by
  induction es with
  | nil => intro s B _; simp [runEvents, previews]
  | cons e rest ih =>
      intro s B h
      rcases e with ⟨t, m⟩
      obtain ⟨⟨v, hm⟩, htB⟩ := h (t, m) (List.mem_cons_self _ _)
      simp only at hm
      subst hm
      have hrest : ∀ e ∈ rest, (∃ v, e.2 = Msg.sliderChanged v) ∧ e.1 ≤ B :=
        fun e' he' => h e' (List.mem_cons_of_mem _ he')
      rw [runEvents_cons]
      by_cases hth : t - s.last_resize_time < 300
      · rw [update_sliderChanged_eq_of_lt t s v hth]
        exact ih _ B hrest
      · rw [update_sliderChanged_eq_of_ge t s v hth]
        dsimp only
        rw [List.singleton_append, previews_cons_preview]
        have hb : previews ((runEvents
            { s with slider_value := v, is_dragging := true,
                     is_resampling_mode := true, last_resize_time := t }
            rest).2) ≤ (B - t) / 300 :=
          ih _ B hrest
        have key : (B - t) / 300 + 1 ≤ (B - s.last_resize_time) / 300 := by
          have h1 : (B - t) / 300 + 1 = (B - t + 300) / 300 :=
            (Nat.add_div_right _ (by norm_num)).symm
          rw [h1]
          exact Nat.div_le_div_right (by omega)
        omega

/-- Slider drag events never spawn a Final-tier render. -/
theorem finals_changed_zero (es : List (ℕ × Msg)) :
    ∀ s : AppState,
      (∀ e ∈ es, ∃ v, e.2 = Msg.sliderChanged v) →
      finals (runEvents s es).2 = 0 := by
  induction es with
  | nil => intro s _; simp [runEvents, finals]
  | cons e rest ih =>
      intro s h
      rcases e with ⟨t, m⟩
      obtain ⟨v, hm⟩ := h (t, m) (List.mem_cons_self _ _)
      simp only at hm
      subst hm
      have hrest : ∀ e ∈ rest, ∃ v, e.2 = Msg.sliderChanged v :=
        fun e' he' => h e' (List.mem_cons_of_mem _ he')
      rw [runEvents_cons]
      by_cases hth : t - s.last_resize_time < 300
      · rw [update_sliderChanged_eq_of_lt t s v hth]
        exact ih _ hrest
      · rw [update_sliderChanged_eq_of_ge t s v hth]
        rw [List.singleton_append, finals_cons_preview]
        exact ih _ hrest

/-- After a non-empty run of slider drag events the session is dragging. -/
theorem dragging_after_changed (es : List (ℕ × Msg)) :
    ∀ s : AppState, es ≠ [] →
      (∀ e ∈ es, ∃ v, e.2 = Msg.sliderChanged v) →
      (runEvents s es).1.is_dragging = true := by
  induction es with
  | nil => intro s hne _; exact absurd rfl hne
  | cons e rest ih =>
      intro s _ h
      rcases e with ⟨t, m⟩
      obtain ⟨v, hm⟩ := h (t, m) (List.mem_cons_self _ _)
      simp only at hm
      subst hm
      rw [runEvents_cons]
      rcases rest with _ | ⟨e2, rest2⟩
      · exact update_sliderChanged_dragging t s v
      · exact ih _ (List.cons_ne_nil _ _)
          (fun e' he' => h e' (List.mem_cons_of_mem _ he'))

/-- Every event of a drag stream is a slider drag event, with time between
`t0` and `t0 + (n-1)·Δ` (phrased as `e.1 + Δ ≤ t0 + n·Δ`). -/
theorem dragStream_mem (Δ : ℕ) :
    ∀ (n : ℕ) (vals : ℕ → ℕ) (t0 : ℕ) (e : ℕ × Msg),
      e ∈ dragStream Δ vals t0 n →
      (∃ v, e.2 = Msg.sliderChanged v) ∧ t0 ≤ e.1 ∧ e.1 + Δ ≤ t0 + n * Δ := by
  intro n
  induction n with
  | zero => intro vals t0 e he; simp [dragStream] at he
  | succ m ih =>
      intro vals t0 e he
      rw [dragStream] at he
      have hmul : (m + 1) * Δ = m * Δ + Δ := Nat.succ_mul m Δ
      rcases List.mem_cons.1 he with rfl | hmem
      · exact ⟨⟨vals 0, rfl⟩, le_refl _, by omega⟩
      · obtain ⟨hshape, h1, h2⟩ := ih _ _ e hmem
        exact ⟨hshape, by omega, by omega⟩

/-- The preview-count bound for a drag stream of `n + 1` events starting at
`t0`: whatever `last_resize_time` the state starts with, at most
`((n+1)·Δ + 299) / 300` Preview renders are accepted. -/
theorem previews_dragStream_le (Δ : ℕ) (hΔ : 1 ≤ Δ) (vals : ℕ → ℕ)
    (t0 n : ℕ) (s : AppState) :
    previews (runEvents s (dragStream Δ vals t0 (n + 1))).2 ≤
      ((n + 1) * Δ + 299) / 300 := by
  rw [dragStream, runEvents_cons]
  have hmul : (n + 1) * Δ = n * Δ + Δ := Nat.succ_mul n Δ
  have htailmem : ∀ e ∈ dragStream Δ (fun k => vals (k + 1)) (t0 + Δ) n,
      (∃ w, e.2 = Msg.sliderChanged w) ∧ e.1 ≤ t0 + n * Δ := by
    intro e he
    obtain ⟨hshape, h1, h2⟩ := dragStream_mem Δ n _ _ e he
    exact ⟨hshape, by omega⟩
  by_cases hth : t0 - s.last_resize_time < 300
  · rw [update_sliderChanged_eq_of_lt t0 s (vals 0) hth]
    have hb : previews ((runEvents
        { s with slider_value := vals 0, is_dragging := true,
                 is_resampling_mode := true }
        (dragStream Δ (fun k => vals (k + 1)) (t0 + Δ) n)).2) ≤
        (t0 + n * Δ - s.last_resize_time) / 300 :=
      previews_changed_le _ _ _ htailmem
    exact le_trans hb (Nat.div_le_div_right (by omega))
  · rw [update_sliderChanged_eq_of_ge t0 s (vals 0) hth]
    dsimp only
    rw [List.singleton_append, previews_cons_preview]
    have hb : previews ((runEvents
        { s with slider_value := vals 0, is_dragging := true,
                 is_resampling_mode := true, last_resize_time := t0 }
        (dragStream Δ (fun k => vals (k + 1)) (t0 + Δ) n)).2) ≤
        (t0 + n * Δ - t0) / 300 :=
      previews_changed_le _ _ _ htailmem
    have hsub : t0 + n * Δ - t0 = n * Δ := by omega
    rw [hsub] at hb
    have key : n * Δ / 300 + 1 ≤ ((n + 1) * Δ + 299) / 300 := by
      have h1 : n * Δ / 300 + 1 = (n * Δ + 300) / 300 :=
        (Nat.add_div_right _ (by norm_num)).symm
      rw [h1]
      exact Nat.div_le_div_right (by omega)
    omega

/-! ## Claim theorems -/

/-- C1: for every loaded source raster of dimensions `(W, H)` with
`W ≥ 1`, `H ≥ 1`, every positive zoom factor and every pan offset of
arbitrary magnitude, the crop rectangle computed by `crop_and_scale`
satisfies `0 ≤ crop_x`, `0 ≤ crop_y`, `crop_x + crop_w ≤ W` and
`crop_y + crop_h ≤ H` (the first two hold by the `ℕ` codomain). -/
theorem C1_crop_rect_in_bounds (W H : ℕ) (scale ox oy : ℚ)
    (hW : 1 ≤ W) (hH : 1 ≤ H) (hs : 0 < scale) :
    (crop_rect W H scale ox oy).x + (crop_rect W H scale ox oy).w ≤ W ∧
    (crop_rect W H scale ox oy).y + (crop_rect W H scale ox oy).h ≤ H := by
  unfold crop_rect
  refine ⟨?_, ?_⟩
  · exact crop_pair_le W ((W : ℚ) / 2 - max ((W : ℚ) / scale) 1 / 2 - ox / scale)
      (max ((W : ℚ) / scale) 1) hW (le_max_right _ _)
  · exact crop_pair_le H ((H : ℚ) / 2 - max ((H : ℚ) / scale) 1 / 2 - oy / scale)
      (max ((H : ℚ) / scale) 1) hH (le_max_right _ _)

/-- Witness for C1 at the spec's scenario input: a `200×100` source, zoom
`2.0`, pan `(0, 0)`. -/
theorem C1_crop_rect_in_bounds_witness :
    (1 ≤ 200 ∧ 1 ≤ 100 ∧ (0 : ℚ) < 2) ∧
    ((crop_rect 200 100 2 0 0).x + (crop_rect 200 100 2 0 0).w ≤ 200 ∧
     (crop_rect 200 100 2 0 0).y + (crop_rect 200 100 2 0 0).h ≤ 100) :=
  ⟨⟨by norm_num, by norm_num, by norm_num⟩,
   C1_crop_rect_in_bounds 200 100 2 0 0 (by norm_num) (by norm_num) (by norm_num)⟩

/-- C2: for every synthetic stream of `N ≥ 1` slider drag events spaced at a
positive interval `Δ < 300` ms (the throttle threshold), followed by a
single release event and the `FinalizeDragging` it schedules 300 ms later,
and no further events: at most `⌈N·Δ / 300⌉ = (N·Δ + 299) / 300` Preview
renders are triggered by the throttle, and exactly one Final render fires
from the quiescence trigger.  (The bound holds for any `Δ ≥ 1`, including
`Δ ≥ 300`, and for any initial `last_resize_time`.) -/
theorem C2_throttle_bound (s0 : AppState) (t0 Δ N : ℕ) (vals : ℕ → ℕ)
    (t_rel : ℕ) (hN : 1 ≤ N) (hΔ : 1 ≤ Δ)
    (hrel : t0 + (N - 1) * Δ ≤ t_rel) :
    previews (runEvents s0 (dragStream Δ vals t0 N ++
        [(t_rel, .sliderReleased), (t_rel + 300, .finalizeDragging)])).2 ≤
      (N * Δ + 299) / 300 ∧
    finals (runEvents s0 (dragStream Δ vals t0 N ++
        [(t_rel, .sliderReleased), (t_rel + 300, .finalizeDragging)])).2 = 1 := by
  obtain ⟨m, rfl⟩ : ∃ m, N = m + 1 := ⟨N - 1, by omega⟩
  rw [runEvents_append]
  dsimp only
  have hshape : ∀ e ∈ dragStream Δ vals t0 (m + 1),
      ∃ v, e.2 = Msg.sliderChanged v :=
    fun e he => (dragStream_mem Δ (m + 1) vals t0 e he).1
  have hne : dragStream Δ vals t0 (m + 1) ≠ [] := by
    rw [dragStream]
    exact List.cons_ne_nil _ _
  set S := (runEvents s0 (dragStream Δ vals t0 (m + 1))).1 with hS
  have hdrag1 : S.is_dragging = true := by
    rw [hS]
    exact dragging_after_changed _ _ hne hshape
  have htail : runEvents S
      [(t_rel, Msg.sliderReleased), (t_rel + 300, Msg.finalizeDragging)] =
      ({ S with is_dragging := false }, [⟨Tier.final, S.resampling_type⟩]) := by
    simp [runEvents, update, hdrag1]
  rw [htail]
  dsimp only
  rw [previews_append, finals_append]
  constructor
  · have htailzero :
        previews [(⟨Tier.final, S.resampling_type⟩ : RenderCall)] = 0 := by
      simp [previews, List.countP_cons]
    rw [htailzero]
    have hmain := previews_dragStream_le Δ hΔ vals t0 m s0
    omega
  · have htailone :
        finals [(⟨Tier.final, S.resampling_type⟩ : RenderCall)] = 1 := by
      simp [finals, List.countP_cons]
    rw [htailone, finals_changed_zero _ _ hshape]

/-- Witness for C2: two drag events 100 ms apart starting at t = 1000 from
the initial state, released at t = 1100; the trace has at most
`(2·100 + 299)/300 = 1` Preview render and exactly one Final render. -/
theorem C2_throttle_bound_witness :
    ((1 : ℕ) ≤ 2 ∧ (1 : ℕ) ≤ 100 ∧ 1000 + (2 - 1) * 100 ≤ 1100) ∧
    (previews (runEvents initState (dragStream 100 (fun _ => 60) 1000 2 ++
        [(1100, .sliderReleased), (1100 + 300, .finalizeDragging)])).2 ≤
      (2 * 100 + 299) / 300 ∧
     finals (runEvents initState (dragStream 100 (fun _ => 60) 1000 2 ++
        [(1100, .sliderReleased), (1100 + 300, .finalizeDragging)])).2 = 1) :=
  ⟨⟨by norm_num, by norm_num, by norm_num⟩,
   C2_throttle_bound initState 1000 100 2 (fun _ => 60) 1100
     (by norm_num) (by norm_num) (by norm_num)⟩

/-- C3: an `ImageResized` result carrying a Preview-tier payload
(`is_high_quality = false`) that is processed after the session has left the
dragging state changes nothing at all — in particular neither the preview
buffer nor the displayed buffer; while still dragging, it is applied to
both. -/
theorem C3_stale_preview_discarded (now : ℕ) (s : AppState) (b : Bytes) :
    (s.is_dragging = false →
      update now s (.imageResized b false) = (s, [])) ∧
    (s.is_dragging = true →
      (update now s (.imageResized b false)).1 =
        { s with preview_scaled_bytes := b, scaled_bytes := b }) := by
  constructor <;> intro h <;> simp [update, h]

/-- Witness for C3: in the initial state (not dragging) a Preview result is
discarded wholesale. -/
theorem C3_stale_preview_discarded_witness :
    initState.is_dragging = false ∧
    update 0 initState (.imageResized (Bytes.png 2 2 ⟨0, 0, 2, 2⟩ .point) false) =
      (initState, []) :=
  ⟨rfl, (C3_stale_preview_discarded 0 initState
      (Bytes.png 2 2 ⟨0, 0, 2, 2⟩ .point)).1 rfl⟩

/-- C5: every resample invocation issued by a slider drag event or by a
pointer pan-drag move event is a Preview render with the `Point`
(NearestNeighbor) algorithm, whatever algorithm the user selected; every
invocation issued by the Final paths (`FinalizeDragging`, pointer release)
uses the user-selected algorithm. -/
theorem C5_preview_uses_point (now : ℕ) (s : AppState) (v : ℕ) (p : ℚ × ℚ) :
    callsAre (update now s (.sliderChanged v)).2 .preview .point = true ∧
    callsAre (update now s (.mouseMoved p)).2 .preview .point = true ∧
    callsAre (update now s .finalizeDragging).2 .final s.resampling_type = true ∧
    callsAre (update now s .mouseReleased).2 .final s.resampling_type = true := by
  refine ⟨?_, ?_, ?_, ?_⟩
  · by_cases h : now - s.last_resize_time < 300 <;> simp [update, h, callsAre]
  · rcases hp : s.pan_start_position with _ | last <;>
      rcases ho : s.original with _ | ori <;>
      by_cases h : s.hand_tool_active && s.is_panning <;>
      simp [update, h, hp, ho, callsAre]
  · by_cases h : s.is_dragging <;> simp [update, h, callsAre]
  · rcases ho : s.original with _ | ori <;>
      by_cases h : s.hand_tool_active <;>
      simp [update, h, ho, callsAre]

/-- C6: after processing `LoadImage` (whatever the decode outcome), the
session is not dragging, the pan offset is `(0, 0)`, the slider is back at
the neutral value 50 — i.e. zoom factor `50 / 50 = 1` — and both the
Preview and the Final byte buffers are empty. -/
theorem C6_load_image_resets (now : ℕ) (s : AppState) (decoded : Option Raster) :
    (update now s (.loadImage decoded)).1.is_dragging = false ∧
    (update now s (.loadImage decoded)).1.pan_offset = (0, 0) ∧
    (update now s (.loadImage decoded)).1.slider_value = 50 ∧
    zoomOf (update now s (.loadImage decoded)).1.slider_value = 1 ∧
    (update now s (.loadImage decoded)).1.preview_scaled_bytes = Bytes.empty ∧
    (update now s (.loadImage decoded)).1.final_scaled_bytes = Bytes.empty := by
  rcases decoded with _ | img <;> simp [update, zoomOf]

/-- Counterexample to C7 as stated: a `LoadImage` whose decode fails
(`decoded = none`) does NOT leave the prior session state intact — the
slider value, dragging flag, pan offset and both buffers are reset before
the decode is attempted. -/
theorem C7_counterexample :
    midDragState.slider_value = 80 ∧
    (update 2000 midDragState (.loadImage none)).1.slider_value = 50 ∧
    midDragState.is_dragging = true ∧
    (update 2000 midDragState (.loadImage none)).1.is_dragging = false ∧
    midDragState.preview_scaled_bytes ≠ Bytes.empty ∧
    (update 2000 midDragState (.loadImage none)).1.preview_scaled_bytes =
      Bytes.empty := by
  refine ⟨rfl, rfl, rfl, rfl, ?_, rfl⟩
  simp [midDragState]

/-- C7 amended: when the decode of a `LoadImage` fails, the load is aborted
with only a logged message — no new raster is installed and the previously
loaded original is kept — but the interaction state is reset exactly as on a
successful load: dragging flag cleared, slider back to 50, pan offset
zeroed, and both the Preview and the Final buffers emptied. -/
theorem C7_failed_load_resets_but_keeps_original (now : ℕ) (s : AppState) :
    (update now s (.loadImage none)).1.original = s.original ∧
    (update now s (.loadImage none)).1.is_dragging = false ∧
    (update now s (.loadImage none)).1.slider_value = 50 ∧
    (update now s (.loadImage none)).1.pan_offset = (0, 0) ∧
    (update now s (.loadImage none)).1.preview_scaled_bytes = Bytes.empty ∧
    (update now s (.loadImage none)).1.final_scaled_bytes = Bytes.empty ∧
    (update now s (.loadImage none)).2 = [] := by
  simp [update]

/-- Counterexample to C4 as stated: starting from the initial state, a
drag at t=1000 is released at t=1100 (scheduling `FinalizeDragging` for
t=1400); a new slider move arrives at t=1200, during the quiescence
period — yet when the pending trigger fires at t=1400 it is NOT cancelled:
it still performs a Final render (the trace contains exactly one
Final-tier invocation, produced by that pending trigger). -/
theorem C4_counterexample :
    finals (runEvents initState
      [(1000, .sliderChanged 60), (1100, .sliderReleased),
       (1200, .sliderChanged 70), (1100 + 300, .finalizeDragging)]).2 = 1 ∧
    (runEvents initState
      [(1000, .sliderChanged 60), (1100, .sliderReleased),
       (1200, .sliderChanged 70)]).1.is_dragging = true := by
  constructor <;> rfl

/-- C4 amended: a new slider move event arriving during the quiescence
period does keep the session in the dragging state, but the pending Final
trigger is NOT cancelled: since the session is dragging when
`FinalizeDragging` fires, the pending trigger performs exactly one Final
render and transitions the session out of the dragging state. -/
theorem C4_quiescence_move_does_not_cancel (t1 t2 : ℕ) (s : AppState) (v : ℕ) :
    (update t1 s (.sliderChanged v)).1.is_dragging = true ∧
    finals (update t2 (update t1 s (.sliderChanged v)).1 .finalizeDragging).2 = 1 ∧
    (update t2 (update t1 s (.sliderChanged v)).1 .finalizeDragging).1.is_dragging
      = false := by
  by_cases h : t1 - s.last_resize_time < 300 <;>
    simp [update, h, finals]

/-- Counterexample to C8 as stated: the zoom factor `0.5` lies in the
claimed domain `[0.5, 3.0]`, but no slider value in the slider's range
`50..=150` maps to it under `/50.0` — shrinking factors below `1.0` are
unreachable. -/
theorem C8_counterexample :
    (1 / 2 : ℚ) ∈ Set.Icc (1 / 2 : ℚ) 3 ∧
    ¬ ∃ v : ℕ, (50 ≤ v ∧ v ≤ 150) ∧ zoomOf v = 1 / 2 := by
  constructor
  · constructor <;> norm_num
  · rintro ⟨v, ⟨h50, _⟩, heq⟩
    rw [zoomOf, div_eq_iff (by norm_num : (50 : ℚ) ≠ 0)] at heq
    norm_num at heq
    have hv : v = 25 := by exact_mod_cast heq
    omega

/-- C8 amended: the zoom factor is obtained from the zoom slider's range
`50..=150` by dividing by `50.0`, so its domain is `[1.0, 3.0]`: every
slider value maps into `[1.0, 3.0]` (hence also into the claimed
`[0.5, 3.0]`), the endpoints `1.0` and `3.0` are reached at slider values
50 and 150, and no slider value yields a factor below `1.0` (shrinking is
not reachable). -/
theorem C8_zoom_domain (v : ℕ) (h50 : 50 ≤ v) (h150 : v ≤ 150) :
    1 ≤ zoomOf v ∧ zoomOf v ≤ 3 ∧ ¬ zoomOf v < 1 ∧
    zoomOf 50 = 1 ∧ zoomOf 150 = 3 := by
  have hv50 : (50 : ℚ) ≤ (v : ℚ) := by exact_mod_cast h50
  have hv150 : (v : ℚ) ≤ 150 := by exact_mod_cast h150
  have h1 : 1 ≤ zoomOf v := by
    rw [zoomOf, le_div_iff₀ (by norm_num : (0 : ℚ) < 50)]
    linarith
  refine ⟨h1, ?_, not_lt.2 h1, ?_, ?_⟩
  · rw [zoomOf, div_le_iff₀ (by norm_num : (0 : ℚ) < 50)]
    linarith
  · rw [zoomOf]
    norm_num
  · rw [zoomOf]
    norm_num

/-- Witness for C8 (amended) at slider value 100: zoom `100/50 = 2`. -/
theorem C8_zoom_domain_witness :
    (50 ≤ 100 ∧ 100 ≤ 150) ∧
    (1 ≤ zoomOf 100 ∧ zoomOf 100 ≤ 3 ∧ ¬ zoomOf 100 < 1 ∧
     zoomOf 50 = 1 ∧ zoomOf 150 = 3) :=
  ⟨⟨by norm_num, by norm_num⟩, C8_zoom_domain 100 (by norm_num) (by norm_num)⟩

/-- Counterexample to C9 as stated: `svg` belongs to the claimed supported
set, so the claim demands a decode attempt for an existing `.svg` file —
but the code's whitelist has no `svg`, so the request returns the flat
`80×80` placeholder with no decode attempted. -/
theorem C9_counterexample :
    "svg" ∈ spec_claimed_thumb_exts ∧
    (load_thumbnail true true "svg" (some ⟨10, 10⟩)).decode_attempted = false ∧
    (load_thumbnail true true "svg" (some ⟨10, 10⟩)).handle =
      ThumbHandle.flatPlaceholder 80 80 150 := by
  refine ⟨by decide, rfl, rfl⟩

/-- C9 amended: the supported extension set of the thumbnail path is
`{png, jpg, jpeg, gif, bmp, tiff, webp}` (no `svg`): for an existing file,
a decode is attempted exactly when the lowercased extension is in that set,
and otherwise the flat-color `80×80` placeholder is returned with no decode
attempted. -/
theorem C9_thumbnail_unsupported_placeholder (ext : String) (decoded : Option Raster) :
    (load_thumbnail true true ext decoded).decode_attempted =
      supported_thumb_exts.contains (to_lowercase ext) ∧
    (supported_thumb_exts.contains (to_lowercase ext) = false →
      (load_thumbnail true true ext decoded).handle =
        ThumbHandle.flatPlaceholder 80 80 150) := by
  unfold load_thumbnail
  cases hc : supported_thumb_exts.contains (to_lowercase ext) <;>
    rcases decoded with _ | img <;> simp [hc]

/-- Witness for C9 (amended) at the spec's scenario input: a `.txt` file. -/
theorem C9_thumbnail_unsupported_placeholder_witness :
    supported_thumb_exts.contains (to_lowercase "txt") = false ∧
    (load_thumbnail true true "txt" none).handle =
      ThumbHandle.flatPlaceholder 80 80 150 :=
  ⟨by decide, (C9_thumbnail_unsupported_placeholder "txt" none).2 (by decide)⟩

/-- C10: for every slider value and every resampling algorithm,
`scale_image_async` invoked with `original = None` returns the empty byte
vector (`Vec::new()`), not an encoded raster. -/
theorem C10_scale_image_async_none (slider_value : ℕ) (alg : ResamplingType) :
    scale_image_async none slider_value alg = Bytes.empty := rfl

end ImageBrowser
